import Mathlib

/-!
# GazeTracker: the calibrated dual-eye Gaussian-process gaze estimator

A shallow embedding of `src/GazeTracker.cpp`.

* `double` values are idealised as elements of a linear ordered field `R`
  (instantiated at `ℚ` for evaluation and at `ℝ` for the analytic facts).
* The library functions the code calls (`sqrt` inside `cv::norm`, `exp`) are
  parameters of the definitions that use them.
* Classes of the repository that are not part of the source file (`ImProcess`,
  `Utils`) are parameters or are modelled from the specification, as marked.
  The tracker is defined over any `ImProcess`; the regressor of the
  specification, `gaussianProcess`, is the instance retraining is studied on.
-/

set_option linter.dupNamespace false

namespace GazeTracker

/-! ## Data model -/

/-- A single-channel floating-point image (`cv::Mat`, `CV_32FC1`), given by its
row-major pixel array.  All eye crops have the canonical size
`EyeExtractor::eyeSize`, so two images have identical dimensions exactly when
their pixel arrays have the same length. -/
abbrev Image (R : Type) := List R

/-- A screen-space calibration target (`Application::Data::calibrationTargets[i]`). -/
structure Point (R : Type) where
  x : R
  y : R
deriving DecidableEq, Repr

/-- The type of the member `gazePoint`. -/
structure GazePoint (R : Type) where
  x : R
  y : R
  isBlinking : Bool
deriving DecidableEq, Repr

/-! ## Kernel function -/

section Kernel

variable {R : Type} [LinearOrderedField R]

/-- Sum over all pixel positions of the squared per-pixel difference. -/
def sumSquaredDiff (image1 image2 : Image R) : R :=
  (List.zipWith (fun p q => (p - q) * (p - q)) image1 image2).sum

/-- The OpenCV call `cv::norm(image1, image2, CV_L2)`: the L2 norm of the
difference of two pixel arrays, i.e. the square root of the sum of the squared
per-pixel differences.  The call is only defined for images of identical
dimensions (a mismatch is the fatal `DimensionMismatchError`), which is the
result `none`. -/
def norm (sqrt : R → R) (image1 image2 : Image R) : Option R :=
  if image1.length = image2.length then some (sqrt (sumSquaredDiff image1 image2)) else none

/-- `GazeTracker::imageDistance`: the norm of the difference, multiplied by itself. -/
def imageDistance (sqrt : R → R) (image1 image2 : Image R) : Option R :=
  match norm sqrt image1 image2 with
  | some norm => some (norm * norm)
  | none => none

/-- Modelled from the spec: `Utils::getParameterAsDouble(name, defaultValue)`, the
configured value of a hyperparameter, or the default when it is not configured. -/
def getParameterAsDouble (config : String → Option R) (name : String) (defaultValue : R) : R :=
  match config name with
  | some v => v
  | none => defaultValue

/-- `GazeTracker::covarianceFunction`: the squared-exponential kernel. -/
def covarianceFunction (config : String → Option R) (sqrt exp : R → R)
    (image1 image2 : Image R) : Option R :=
  let sigma := getParameterAsDouble config "sigma" 2
  let lscale := getParameterAsDouble config "lscale" 2000
  match imageDistance sqrt image1 image2 with
  | some d => some (sigma * sigma * exp (-d / (2 * lscale * lscale)))
  | none => none

end Kernel

/-! ## The tracker -/

section Tracker

variable {R M : Type} [LinearOrderedField R]

/-- The kind of failure a model fit can end in. -/
inductive DegenerateModelError where
  | degenerate
deriving DecidableEq, Repr

/-- Modelled from the spec: the class `ImProcess` (the GP regressor of
`GaussianProcess.h`, which is not part of the source file), with models of type `M`.
`construct images labels kernel noise` is the constructor
`ImProcess(images, labels, covarianceFunction, noise)`: it either yields a fitted
model or fails with `DegenerateModelError` (the result `none`).
`getmean model query` is the posterior mean `model->getmean(query)`. -/
structure ImProcess (R M : Type) where
  construct : List (Image R) → List R → (Image R → Image R → Option R) → R → Option M
  getmean : M → Image R → R

/-- The data members of the class `GazeTracker`.  A smart pointer to a model is
an `Option`: `none` is the null pointer.  The pointers `_eyeExtractor` and
`_pointTracker` to the collaborating components are not kept: what a member
function reads through them is an argument of that function. -/
structure State (R M : Type) where
  gazePoint : GazePoint R
  _calibrationTargetImages : List (Image R)
  _calibrationTargetImagesLeft : List (Image R)
  _calibrationTargetImagesAllFrames : List (Image R)
  _calibrationTargetImagesLeftAllFrames : List (Image R)
  _calibrationTargetPointsAllFrames : List (Point R)
  _gaussianProcessX : Option M
  _gaussianProcessY : Option M
  _gaussianProcessXLeft : Option M
  _gaussianProcessYLeft : Option M

/-- How a call that may throw ends: it returns normally, or an exception leaves
it; either way the tracker is left in some state. -/
inductive Outcome (σ : Type) where
  | returned (s : σ)
  | threw (e : DegenerateModelError) (s : σ)

/-- The state the tracker is in after the call. -/
def Outcome.state {σ : Type} : Outcome σ → σ
  | .returned s => s
  | .threw _ s => s

/-- `GazeTracker::GazeTracker()`: the gaze point is initialised by the constructor
body; the vectors and the model pointers are default-constructed (empty, null). -/
def GazeTracker : State R M where
  gazePoint := { x := 0, y := 0, isBlinking := false }
  _calibrationTargetImages := []
  _calibrationTargetImagesLeft := []
  _calibrationTargetImagesAllFrames := []
  _calibrationTargetImagesLeftAllFrames := []
  _calibrationTargetPointsAllFrames := []
  _gaussianProcessX := none
  _gaussianProcessY := none
  _gaussianProcessXLeft := none
  _gaussianProcessYLeft := none

/-- `GazeTracker::isActive`. -/
def isActive (s : State R M) : Bool :=
  s._gaussianProcessX.isSome && s._gaussianProcessY.isSome

/-- `GazeTracker::clear`. -/
def clear (s : State R M) : State R M :=
  let s := { s with _calibrationTargetImages := [] }
  let s := { s with _calibrationTargetImagesLeft := [] }
  let s := { s with _calibrationTargetImagesAllFrames := [] }
  let s := { s with _calibrationTargetImagesLeftAllFrames := [] }
  let s := { s with _calibrationTargetPointsAllFrames := [] }
  let s := { s with _gaussianProcessX := none }
  let s := { s with _gaussianProcessY := none }
  let s := { s with _gaussianProcessXLeft := none }
  { s with _gaussianProcessYLeft := none }

/-- The vector `xLabels` built by the loop of `updateGaussianProcesses`. -/
def xLabels (calibrationTargets : List (Point R)) : List R :=
  calibrationTargets.foldl (fun labels target => labels ++ [target.x]) []

/-- The vector `yLabels` built by the loop of `updateGaussianProcesses`. -/
def yLabels (calibrationTargets : List (Point R)) : List R :=
  calibrationTargets.foldl (fun labels target => labels ++ [target.y]) []

/-- `GazeTracker::updateGaussianProcesses`.  `calibrationTargets` is the global
`Application::Data::calibrationTargets`; `config`, `sqrt` and `exp` are what
`covarianceFunction` reads and calls.
The four `reset(new ImProcess(...))` statements run in order; a constructor that
throws leaves the function at once, before the `reset` of its own statement. -/
def updateGaussianProcesses (gp : ImProcess R M) (config : String → Option R) (sqrt exp : R → R)
    (calibrationTargets : List (Point R)) (s : State R M) : Outcome (State R M) :=
  let kernel := covarianceFunction config sqrt exp
  let xLabels := xLabels calibrationTargets
  let yLabels := yLabels calibrationTargets
  match gp.construct s._calibrationTargetImages xLabels kernel (1 / 100) with
  | none => .threw .degenerate s
  | some mx =>
    let s := { s with _gaussianProcessX := some mx }
    match gp.construct s._calibrationTargetImages yLabels kernel (1 / 100) with
    | none => .threw .degenerate s
    | some my =>
      let s := { s with _gaussianProcessY := some my }
      match gp.construct s._calibrationTargetImagesLeft xLabels kernel (1 / 100) with
      | none => .threw .degenerate s
      | some mxl =>
        let s := { s with _gaussianProcessXLeft := some mxl }
        match gp.construct s._calibrationTargetImagesLeft yLabels kernel (1 / 100) with
        | none => .threw .degenerate s
        | some myl => .returned { s with _gaussianProcessYLeft := some myl }

/-- `GazeTracker::addExemplar`.  `averageEye` and `averageEyeLeft` are the mean
images `_eyeExtractor->averageEye->getMean()` and
`_eyeExtractor->averageEyeLeft->getMean()` of the eye-extraction collaborator. -/
def addExemplar (gp : ImProcess R M) (config : String → Option R) (sqrt exp : R → R)
    (calibrationTargets : List (Point R)) (averageEye averageEyeLeft : Image R)
    (s : State R M) : Outcome (State R M) :=
  let s := { s with _calibrationTargetImages := s._calibrationTargetImages ++ [averageEye] }
  let s := { s with _calibrationTargetImagesLeft := s._calibrationTargetImagesLeft ++ [averageEyeLeft] }
  updateGaussianProcesses gp config sqrt exp calibrationTargets s

/-- Modelled from the spec: `Utils::boundToScreenArea` (not part of the source
file) clips the point to the screen rectangle `[0, width] × [0, height]`; the
blink flag is not touched. -/
def boundToScreenArea (width height : R) (p : GazePoint R) : GazePoint R :=
  { p with x := max 0 (min width p.x), y := max 0 (min height p.y) }

/-- `GazeTracker::updateEstimations`.  `image` and `leftImage` are
`_eyeExtractor->eyeFloat` and `_eyeExtractor->eyeFloatLeft`, `isBlinking` is
`_eyeExtractor->isBlinking()`.  Dereferencing a null model pointer has no defined
behaviour: the result is `none`. -/
def updateEstimations (gp : ImProcess R M) (width height : R) (image leftImage : Image R)
    (isBlinking : Bool) (s : State R M) : Option (State R M) :=
  if isActive s then
    match s._gaussianProcessX, s._gaussianProcessXLeft, s._gaussianProcessY, s._gaussianProcessYLeft with
    | some mx, some mxl, some my, some myl =>
      let s := { s with gazePoint.x := (gp.getmean mx image + gp.getmean mxl leftImage) / 2 }
      let s := { s with gazePoint.y := (gp.getmean my image + gp.getmean myl leftImage) / 2 }
      let s := { s with gazePoint.isBlinking := isBlinking }
      some { s with gazePoint := boundToScreenArea width height s.gazePoint }
    | _, _, _, _ => none
  else
    some s

/-! ## Reachable states -/

/-- The states the calibration store can be in: those reached from construction
by `addExemplar` calls (whether they return or throw) and `clear` calls. -/
inductive StoreReachable (gp : ImProcess R M) (config : String → Option R) (sqrt exp : R → R) :
    State R M → Prop where
  | construct : StoreReachable gp config sqrt exp GazeTracker
  | addExemplar (calibrationTargets : List (Point R)) (averageEye averageEyeLeft : Image R)
      (s : State R M) :
      StoreReachable gp config sqrt exp s →
      StoreReachable gp config sqrt exp
        (addExemplar gp config sqrt exp calibrationTargets averageEye averageEyeLeft s).state
  | clear (s : State R M) :
      StoreReachable gp config sqrt exp s → StoreReachable gp config sqrt exp (clear s)

/-- The states reached from construction by `addExemplar` calls in which every
model fit succeeds (the call returns), `clear` calls and `updateEstimations`
calls. -/
inductive Reachable (gp : ImProcess R M) (config : String → Option R) (sqrt exp : R → R)
    (width height : R) : State R M → Prop where
  | construct : Reachable gp config sqrt exp width height GazeTracker
  | addExemplar (calibrationTargets : List (Point R)) (averageEye averageEyeLeft : Image R)
      (s t : State R M) :
      Reachable gp config sqrt exp width height s →
      addExemplar gp config sqrt exp calibrationTargets averageEye averageEyeLeft s = .returned t →
      Reachable gp config sqrt exp width height t
  | clear (s : State R M) :
      Reachable gp config sqrt exp width height s →
      Reachable gp config sqrt exp width height (clear s)
  | updateEstimations (image leftImage : Image R) (isBlinking : Bool) (s t : State R M) :
      Reachable gp config sqrt exp width height s →
      updateEstimations gp width height image leftImage isBlinking s = some t →
      Reachable gp config sqrt exp width height t

/-- The state Uncalibrated: all four model pointers are null. -/
def isUncalibrated (s : State R M) : Bool :=
  s._gaussianProcessX.isNone && s._gaussianProcessY.isNone &&
    s._gaussianProcessXLeft.isNone && s._gaussianProcessYLeft.isNone

/-- The state Calibrated: all four model pointers hold a model. -/
def isCalibrated (s : State R M) : Bool :=
  s._gaussianProcessX.isSome && s._gaussianProcessY.isSome &&
    s._gaussianProcessXLeft.isSome && s._gaussianProcessYLeft.isSome

end Tracker

/-! ## The regressor of the specification -/

section Regressor

variable {R : Type} [LinearOrderedField R]

end Regressor

/-! ## Concrete instances used for evaluation -/

section Instances

/-- A regressor to run the tracker on concrete inputs, over `ℚ`.  A model is the
first label it was fit on, and predicts that label for every query.  The fit
fails when there is no exemplar. -/
def constantProcess : ImProcess ℚ ℚ where
  construct := fun images labels _ _ => if images.isEmpty then none else some (labels.headD 0)
  getmean := fun m _ => m

/-- No hyperparameter is configured: the defaults are used. -/
def defaultConfig (R : Type) : String → Option R := fun _ => none

/-- A calibrated tracker over `ℚ` whose right-eye models predict `(100, 100)` and
whose left-eye models predict `(200, 200)`. -/
def fusionState : State ℚ ℚ :=
  { (GazeTracker : State ℚ ℚ) with
    _gaussianProcessX := some 100
    _gaussianProcessY := some 100
    _gaussianProcessXLeft := some 200
    _gaussianProcessYLeft := some 200 }

/-- A calibrated tracker over `ℚ` whose fused raw prediction is `(-50, 2000)`. -/
def offScreenState : State ℚ ℚ :=
  { (GazeTracker : State ℚ ℚ) with
    _gaussianProcessX := some (-80)
    _gaussianProcessY := some 1900
    _gaussianProcessXLeft := some (-20)
    _gaussianProcessYLeft := some 2100 }

/-- A tracker with one exemplar per eye whose only models are the right-eye x
model, and an earlier gaze point. -/
def halfFittedState : State ℚ ℚ :=
  { (GazeTracker : State ℚ ℚ) with
    gazePoint := { x := 7, y := 9, isBlinking := true }
    _calibrationTargetImages := [[1, 2]]
    _calibrationTargetImagesLeft := [[3, 4]]
    _gaussianProcessX := some 5 }

/-- One calibration target, the centre of a 1920 by 1080 screen. -/
def oneTarget : List (Point ℚ) := [{ x := 960, y := 540 }]

end Instances

/-! ## Theorems -/

section KernelTheorems

variable {R : Type} [LinearOrderedField R]

theorem sumSquaredDiff_nonneg (a b : Image R) : 0 ≤ sumSquaredDiff a b := by
  unfold sumSquaredDiff
  apply List.sum_nonneg
  intro x hx
  rw [List.mem_iff_get] at hx
  obtain ⟨i, rfl⟩ := hx
  simp only [List.get_eq_getElem, List.getElem_zipWith]
  exact mul_self_nonneg _

theorem sumSquaredDiff_comm (a b : Image R) : sumSquaredDiff a b = sumSquaredDiff b a := by
  unfold sumSquaredDiff
  congr 1
  induction a generalizing b with
  | nil => cases b <;> rfl
  | cons x xs ih =>
    cases b with
    | nil => rfl
    | cons y ys =>
      simp only [List.zipWith_cons_cons, ih ys]
      congr 1
      ring

theorem sumSquaredDiff_self (a : Image R) : sumSquaredDiff a a = 0 := by
  unfold sumSquaredDiff
  induction a with
  | nil => rfl
  | cons x xs ih => simp only [List.zipWith_cons_cons, List.sum_cons, ih, sub_self, mul_zero, add_zero]

theorem norm_of_length_eq (sqrt : R → R) (a b : Image R) (h : a.length = b.length) :
    norm sqrt a b = some (sqrt (sumSquaredDiff a b)) := by
  simp [norm, h]

theorem sumSquaredDiff_eq_sum_sq (a b : Image R) :
    sumSquaredDiff a b = (List.zipWith (fun p q => (p - q) ^ 2) a b).sum := by
  have hfun : (fun p q : R => (p - q) * (p - q)) = fun p q => (p - q) ^ 2 := by
    funext p q
    ring
  unfold sumSquaredDiff
  rw [hfun]

/-- C1: for images of identical dimensions, `imageDistance` is the sum over all
pixels of the squared per-pixel difference (the norm of the difference times
itself, for a `sqrt` that is a square root on the non-negative numbers), and
`covarianceFunction` is `sigma^2 * exp(-d / (2 * lscale^2))` for the configured
`sigma` and `lscale`, which default to 2 and 2000. -/
theorem covarianceFunction_formula (config : String → Option R) (sqrt exp : R → R)
    (hsqrt : ∀ t : R, 0 ≤ t → sqrt t * sqrt t = t)
    (a b : Image R) (hdim : a.length = b.length) :
    imageDistance sqrt a b = some (List.zipWith (fun p q => (p - q) ^ 2) a b).sum ∧
    covarianceFunction config sqrt exp a b =
      some ((getParameterAsDouble config "sigma" 2) ^ 2 *
        exp (-(List.zipWith (fun p q => (p - q) ^ 2) a b).sum /
          (2 * (getParameterAsDouble config "lscale" 2000) ^ 2))) ∧
    getParameterAsDouble (defaultConfig R) "sigma" 2 = 2 ∧
    getParameterAsDouble (defaultConfig R) "lscale" 2000 = 2000 := by
  have hd : imageDistance sqrt a b = some (List.zipWith (fun p q => (p - q) ^ 2) a b).sum := by
    simp only [imageDistance, norm_of_length_eq sqrt a b hdim]
    rw [hsqrt _ (sumSquaredDiff_nonneg a b), sumSquaredDiff_eq_sum_sq]
  refine ⟨hd, ?_, rfl, rfl⟩
  simp only [covarianceFunction, hd, Option.some.injEq]
  congr 2
  · ring
  · ring

/-- Witness of C1 over the reals: the images `[1, 2]` and `[3, 5]` are at distance
`2^2 + 3^2 = 13`. -/
theorem covarianceFunction_formula_witness :
    imageDistance Real.sqrt ([1, 2] : Image ℝ) [3, 5] = some 13 ∧
    covarianceFunction (defaultConfig ℝ) Real.sqrt Real.exp ([1, 2] : Image ℝ) [3, 5] =
      some (2 ^ 2 * Real.exp (-13 / (2 * 2000 ^ 2))) := by
  have h := covarianceFunction_formula (defaultConfig ℝ) Real.sqrt Real.exp
    (fun t ht => Real.mul_self_sqrt ht) [1, 2] [3, 5] rfl
  refine ⟨?_, ?_⟩
  · rw [h.1]; norm_num
  · rw [h.2.1]; norm_num [getParameterAsDouble, defaultConfig]

/-- C2: the kernel is symmetric, `covarianceFunction(a, b) = covarianceFunction(b, a)`. -/
theorem covarianceFunction_symm (config : String → Option R) (sqrt exp : R → R)
    (a b : Image R) :
    covarianceFunction config sqrt exp a b = covarianceFunction config sqrt exp b a := by
  have hn : norm sqrt a b = norm sqrt b a := by
    unfold norm
    by_cases h : a.length = b.length
    · rw [if_pos h, if_pos h.symm, sumSquaredDiff_comm]
    · rw [if_neg h, if_neg (fun h2 => h h2.symm)]
  simp only [covarianceFunction, imageDistance, hn]

/-- C3: for `sigma > 0` and `lscale > 0` and images `a`, `b` of identical
dimensions, `imageDistance(a, a) = 0`, `covarianceFunction(a, a) = sigma^2 > 0`,
and `covarianceFunction(a, b) ≤ covarianceFunction(a, a)`. -/
theorem covarianceFunction_self_maximal (config : String → Option R) (sqrt exp : R → R)
    (hsqrt0 : sqrt 0 = 0) (hexp0 : exp 0 = 1) (hexp : Monotone exp)
    (hsigma : 0 < getParameterAsDouble config "sigma" 2)
    (hlscale : 0 < getParameterAsDouble config "lscale" 2000)
    (a b : Image R) (hdim : a.length = b.length) :
    imageDistance sqrt a a = some 0 ∧
    covarianceFunction config sqrt exp a a = some ((getParameterAsDouble config "sigma" 2) ^ 2) ∧
    0 < (getParameterAsDouble config "sigma" 2) ^ 2 ∧
    ∃ kab kaa : R, covarianceFunction config sqrt exp a b = some kab ∧
      covarianceFunction config sqrt exp a a = some kaa ∧ kab ≤ kaa := by
  have hd : imageDistance sqrt a a = some 0 := by
    simp [imageDistance, norm, sumSquaredDiff_self, hsqrt0]
  have hk : covarianceFunction config sqrt exp a a =
      some ((getParameterAsDouble config "sigma" 2) ^ 2) := by
    simp only [covarianceFunction, hd, neg_zero, zero_div, hexp0, mul_one, Option.some.injEq]
    ring
  refine ⟨hd, hk, pow_pos hsigma 2, ?_⟩
  refine ⟨getParameterAsDouble config "sigma" 2 * getParameterAsDouble config "sigma" 2 *
      exp (-(sqrt (sumSquaredDiff a b) * sqrt (sumSquaredDiff a b)) /
        (2 * getParameterAsDouble config "lscale" 2000 *
          getParameterAsDouble config "lscale" 2000)), _, ?_, hk, ?_⟩
  · simp only [covarianceFunction, imageDistance, norm_of_length_eq sqrt a b hdim]
  · have hl : 0 < 2 * getParameterAsDouble config "lscale" 2000 *
        getParameterAsDouble config "lscale" 2000 := by positivity
    have harg : -(sqrt (sumSquaredDiff a b) * sqrt (sumSquaredDiff a b)) /
        (2 * getParameterAsDouble config "lscale" 2000 *
          getParameterAsDouble config "lscale" 2000) ≤ 0 :=
      div_nonpos_of_nonpos_of_nonneg (neg_nonpos.mpr (mul_self_nonneg _)) hl.le
    have h1 := hexp harg
    rw [hexp0] at h1
    calc getParameterAsDouble config "sigma" 2 * getParameterAsDouble config "sigma" 2 *
          exp (-(sqrt (sumSquaredDiff a b) * sqrt (sumSquaredDiff a b)) /
            (2 * getParameterAsDouble config "lscale" 2000 *
              getParameterAsDouble config "lscale" 2000))
        ≤ getParameterAsDouble config "sigma" 2 * getParameterAsDouble config "sigma" 2 * 1 :=
          mul_le_mul_of_nonneg_left h1 (mul_self_nonneg _)
      _ = (getParameterAsDouble config "sigma" 2) ^ 2 := by ring

/-- Witness of C3 over the reals, with the default hyperparameters and the images
`[1, 2]` and `[3, 5]`. -/
theorem covarianceFunction_self_maximal_witness :
    imageDistance Real.sqrt ([1, 2] : Image ℝ) [1, 2] = some 0 ∧
    covarianceFunction (defaultConfig ℝ) Real.sqrt Real.exp ([1, 2] : Image ℝ) [1, 2] =
      some ((2 : ℝ) ^ 2) ∧
    ∃ kab kaa : ℝ,
      covarianceFunction (defaultConfig ℝ) Real.sqrt Real.exp ([1, 2] : Image ℝ) [3, 5] = some kab ∧
      covarianceFunction (defaultConfig ℝ) Real.sqrt Real.exp ([1, 2] : Image ℝ) [1, 2] = some kaa ∧
      kab ≤ kaa := by
  have h := covarianceFunction_self_maximal (defaultConfig ℝ) Real.sqrt Real.exp
    Real.sqrt_zero Real.exp_zero Real.exp_monotone
    (by norm_num [getParameterAsDouble, defaultConfig])
    (by norm_num [getParameterAsDouble, defaultConfig]) [1, 2] [3, 5] rfl
  exact ⟨h.1, h.2.1, h.2.2.2⟩

end KernelTheorems

section EstimationTheorems

variable {R M : Type}

theorem isActive_of_models (s : State R M) (mx my : M)
    (hx : s._gaussianProcessX = some mx) (hy : s._gaussianProcessY = some my) :
    isActive s = true := by
  simp [isActive, hx, hy]

variable [LinearOrderedField R]

theorem updateEstimations_of_models (gp : ImProcess R M) (width height : R)
    (image leftImage : Image R) (isBlinking : Bool) (s : State R M) (mx my mxl myl : M)
    (hx : s._gaussianProcessX = some mx) (hy : s._gaussianProcessY = some my)
    (hxl : s._gaussianProcessXLeft = some mxl) (hyl : s._gaussianProcessYLeft = some myl) :
    updateEstimations gp width height image leftImage isBlinking s =
      some { s with
        gazePoint :=
          boundToScreenArea width height
            ⟨(gp.getmean mx image + gp.getmean mxl leftImage) / 2,
              (gp.getmean my image + gp.getmean myl leftImage) / 2, isBlinking⟩ } := by
  simp only [updateEstimations, isActive_of_models s mx my hx hy, if_true, hx, hy, hxl, hyl]

theorem updateEstimations_of_inactive (gp : ImProcess R M) (width height : R)
    (image leftImage : Image R) (isBlinking : Bool) (s : State R M)
    (h : isActive s = false) :
    updateEstimations gp width height image leftImage isBlinking s = some s := by
  simp [updateEstimations, h]

/-- C4: in the Calibrated state `updateEstimations` hands to the clamp the point
whose x is the mean of the right-eye x prediction on the right image and the
left-eye x prediction on the left image, and likewise for y; right-eye
predictions `(100, 100)` and left-eye predictions `(200, 200)` fuse to
`(150, 150)`. -/
theorem updateEstimations_fuses (gp : ImProcess R M) (width height : R)
    (image leftImage : Image R) (isBlinking : Bool) (s : State R M) (mx my mxl myl : M)
    (hx : s._gaussianProcessX = some mx) (hy : s._gaussianProcessY = some my)
    (hxl : s._gaussianProcessXLeft = some mxl) (hyl : s._gaussianProcessYLeft = some myl) :
    updateEstimations gp width height image leftImage isBlinking s =
      some { s with
        gazePoint :=
          boundToScreenArea width height
            ⟨(gp.getmean mx image + gp.getmean mxl leftImage) / 2,
              (gp.getmean my image + gp.getmean myl leftImage) / 2, isBlinking⟩ } ∧
    (gp.getmean mx image = 100 → gp.getmean my image = 100 →
      gp.getmean mxl leftImage = 200 → gp.getmean myl leftImage = 200 →
      updateEstimations gp width height image leftImage isBlinking s =
        some { s with gazePoint := boundToScreenArea width height ⟨150, 150, isBlinking⟩ }) := by
  have h := updateEstimations_of_models gp width height image leftImage isBlinking s
    mx my mxl myl hx hy hxl hyl
  refine ⟨h, ?_⟩
  intro h1 h2 h3 h4
  rw [h, h1, h2, h3, h4]
  norm_num

/-- Witness of C4: on a 1920 by 1080 screen the tracker whose right-eye models
predict `(100, 100)` and whose left-eye models predict `(200, 200)` ends at
`(150, 150)`. -/
theorem updateEstimations_fuses_witness :
    updateEstimations constantProcess 1920 1080 [1, 2] [3, 4] false fusionState =
      some { fusionState with gazePoint := { x := 150, y := 150, isBlinking := false } } := by
  have h := (updateEstimations_fuses constantProcess 1920 1080 [1, 2] [3, 4]
    false fusionState 100 100 200 200 rfl rfl rfl rfl).2 rfl rfl rfl rfl
  rw [h]
  norm_num [boundToScreenArea]

/-- C5: in the Calibrated state the gaze point left by `updateEstimations` lies in
`[0, width] × [0, height]`; a raw fused coordinate inside its interval is kept,
one below 0 becomes 0 and one above the upper bound becomes that bound. -/
theorem updateEstimations_clamps (gp : ImProcess R M) (width height : R)
    (hw : 0 ≤ width) (hh : 0 ≤ height)
    (image leftImage : Image R) (isBlinking : Bool) (s : State R M) (mx my mxl myl : M)
    (hx : s._gaussianProcessX = some mx) (hy : s._gaussianProcessY = some my)
    (hxl : s._gaussianProcessXLeft = some mxl) (hyl : s._gaussianProcessYLeft = some myl) :
    ∃ t : State R M,
      updateEstimations gp width height image leftImage isBlinking s = some t ∧
      (0 ≤ t.gazePoint.x ∧ t.gazePoint.x ≤ width) ∧
      (0 ≤ t.gazePoint.y ∧ t.gazePoint.y ≤ height) ∧
      (0 ≤ (gp.getmean mx image + gp.getmean mxl leftImage) / 2 →
        (gp.getmean mx image + gp.getmean mxl leftImage) / 2 ≤ width →
        t.gazePoint.x = (gp.getmean mx image + gp.getmean mxl leftImage) / 2) ∧
      ((gp.getmean mx image + gp.getmean mxl leftImage) / 2 < 0 → t.gazePoint.x = 0) ∧
      (width < (gp.getmean mx image + gp.getmean mxl leftImage) / 2 → t.gazePoint.x = width) ∧
      (0 ≤ (gp.getmean my image + gp.getmean myl leftImage) / 2 →
        (gp.getmean my image + gp.getmean myl leftImage) / 2 ≤ height →
        t.gazePoint.y = (gp.getmean my image + gp.getmean myl leftImage) / 2) ∧
      ((gp.getmean my image + gp.getmean myl leftImage) / 2 < 0 → t.gazePoint.y = 0) ∧
      (height < (gp.getmean my image + gp.getmean myl leftImage) / 2 → t.gazePoint.y = height) := by
  refine ⟨_, updateEstimations_of_models gp width height image leftImage isBlinking s
    mx my mxl myl hx hy hxl hyl, ?_⟩
  simp only [boundToScreenArea]
  refine ⟨⟨le_max_left _ _, max_le hw (min_le_left _ _)⟩,
    ⟨le_max_left _ _, max_le hh (min_le_left _ _)⟩, ?_, ?_, ?_, ?_, ?_, ?_⟩
  · intro h0 h1
    rw [min_eq_right h1, max_eq_right h0]
  · intro h0
    exact max_eq_left ((min_le_right _ _).trans h0.le)
  · intro h1
    rw [min_eq_left h1.le, max_eq_right hw]
  · intro h0 h1
    rw [min_eq_right h1, max_eq_right h0]
  · intro h0
    exact max_eq_left ((min_le_right _ _).trans h0.le)
  · intro h1
    rw [min_eq_left h1.le, max_eq_right hh]

/-- Witness of C5: on a 1920 by 1080 screen the raw fused prediction
`(-50, 2000)` is left at `(0, 1080)`. -/
theorem updateEstimations_clamps_witness :
    ∃ t : State ℚ ℚ,
      updateEstimations constantProcess 1920 1080 [1, 2] [3, 4] true
        offScreenState = some t ∧
      t.gazePoint.x = 0 ∧ t.gazePoint.y = 1080 := by
  obtain ⟨t, ht, -, -, -, hx0, -, -, -, hy1⟩ :=
    updateEstimations_clamps constantProcess 1920 1080 (by norm_num) (by norm_num)
      [1, 2] [3, 4] true offScreenState (-80) 1900 (-20) 2100 rfl rfl rfl rfl
  refine ⟨t, ht, hx0 ?_, hy1 ?_⟩
  · norm_num [constantProcess]
  · norm_num [constantProcess]

/-- C6: while `isActive()` is false, `updateEstimations` changes nothing: the gaze
point and every other field of the state are as before; on a freshly
constructed tracker the gaze point stays at `(0, 0)`, not blinking. -/
theorem updateEstimations_inactive_noop (gp : ImProcess R M) (width height : R)
    (image leftImage : Image R) (isBlinking : Bool) (s : State R M)
    (hinactive : isActive s = false) :
    updateEstimations gp width height image leftImage isBlinking s = some s ∧
    isActive (GazeTracker : State R M) = false ∧
    updateEstimations gp width height image leftImage isBlinking (GazeTracker : State R M) =
      some GazeTracker ∧
    (GazeTracker : State R M).gazePoint = { x := 0, y := 0, isBlinking := false } :=
  ⟨updateEstimations_of_inactive gp width height image leftImage isBlinking s hinactive, rfl,
    updateEstimations_of_inactive gp width height image leftImage isBlinking _ rfl, rfl⟩

/-- Witness of C6: a tracker that only has a right-eye x model is inactive, and a
query leaves its gaze point `(7, 9, blinking)` and its other fields alone. -/
theorem updateEstimations_inactive_noop_witness :
    isActive halfFittedState = false ∧
    updateEstimations constantProcess 1920 1080 [1, 2] [3, 4] false
      halfFittedState = some halfFittedState :=
  ⟨rfl, (updateEstimations_inactive_noop constantProcess 1920 1080 [1, 2] [3, 4]
    false halfFittedState rfl).1⟩

/-- C7: after `clear()` the tracker is Uncalibrated (`isActive()` is false, all four
models are absent) whatever its state was, and a following `updateEstimations`
leaves the state, and with it the gaze point, exactly as it was. -/
theorem clear_then_updateEstimations (gp : ImProcess R M) (width height : R)
    (image leftImage : Image R) (isBlinking : Bool) (s : State R M) :
    isActive (clear s) = false ∧
    isUncalibrated (clear s) = true ∧
    (clear s)._gaussianProcessX = none ∧ (clear s)._gaussianProcessY = none ∧
    (clear s)._gaussianProcessXLeft = none ∧ (clear s)._gaussianProcessYLeft = none ∧
    (clear s).gazePoint = s.gazePoint ∧
    updateEstimations gp width height image leftImage isBlinking (clear s) = some (clear s) ∧
    ∃ t : State R M,
      updateEstimations gp width height image leftImage isBlinking (clear s) = some t ∧
      t.gazePoint = s.gazePoint :=
  ⟨rfl, rfl, rfl, rfl, rfl, rfl, rfl,
    updateEstimations_of_inactive gp width height image leftImage isBlinking _ rfl,
    clear s, updateEstimations_of_inactive gp width height image leftImage isBlinking _ rfl, rfl⟩

end EstimationTheorems

section StoreTheorems

variable {R M : Type} [LinearOrderedField R]

theorem updateGaussianProcesses_frame (gp : ImProcess R M) (config : String → Option R)
    (sqrt exp : R → R) (calibrationTargets : List (Point R)) (s : State R M) :
    (updateGaussianProcesses gp config sqrt exp calibrationTargets s).state._calibrationTargetImages
        = s._calibrationTargetImages ∧
    (updateGaussianProcesses gp config sqrt exp calibrationTargets s).state._calibrationTargetImagesLeft
        = s._calibrationTargetImagesLeft ∧
    (updateGaussianProcesses gp config sqrt exp calibrationTargets s).state.gazePoint
        = s.gazePoint := by
  unfold updateGaussianProcesses
  simp only
  split
  · exact ⟨rfl, rfl, rfl⟩
  · split
    · exact ⟨rfl, rfl, rfl⟩
    · split
      · exact ⟨rfl, rfl, rfl⟩
      · split <;> exact ⟨rfl, rfl, rfl⟩

theorem addExemplar_images (gp : ImProcess R M) (config : String → Option R)
    (sqrt exp : R → R) (calibrationTargets : List (Point R)) (averageEye averageEyeLeft : Image R)
    (s : State R M) :
    (addExemplar gp config sqrt exp calibrationTargets averageEye averageEyeLeft
        s).state._calibrationTargetImages = s._calibrationTargetImages ++ [averageEye] ∧
    (addExemplar gp config sqrt exp calibrationTargets averageEye averageEyeLeft
        s).state._calibrationTargetImagesLeft = s._calibrationTargetImagesLeft ++ [averageEyeLeft] := by
  unfold addExemplar
  simp only
  obtain ⟨h1, h2, -⟩ := updateGaussianProcesses_frame gp config sqrt exp calibrationTargets
    { s with
      _calibrationTargetImages := s._calibrationTargetImages ++ [averageEye]
      _calibrationTargetImagesLeft := s._calibrationTargetImagesLeft ++ [averageEyeLeft] }
  exact ⟨h1, h2⟩

theorem foldl_append_singleton_length {α β : Type} (f : α → β) (l : List α) (acc : List β) :
    (l.foldl (fun labels target => labels ++ [f target]) acc).length = acc.length + l.length := by
  induction l generalizing acc with
  | nil => simp
  | cons a l ih =>
    simp only [List.foldl_cons, ih, List.length_append, List.length_cons, List.length_nil]
    omega

theorem store_lengths_eq (gp : ImProcess R M) (config : String → Option R) (sqrt exp : R → R)
    (s : State R M) (hs : StoreReachable gp config sqrt exp s) :
    s._calibrationTargetImages.length = s._calibrationTargetImagesLeft.length := by
  induction hs with
  | construct => rfl
  | addExemplar calibrationTargets averageEye averageEyeLeft s _ ih =>
    obtain ⟨h1, h2⟩ := addExemplar_images gp config sqrt exp calibrationTargets averageEye
      averageEyeLeft s
    rw [h1, h2, List.length_append, List.length_append, ih]
    rfl
  | clear s _ _ => rfl

/-- C8 (as amended): in every state reachable from construction by `addExemplar`
and `clear` calls the right-eye and left-eye exemplar lists have the same length;
`addExemplar` appends exactly one image to each of the two (whether or not the
fits succeed), `clear` empties both; the x and y label lists are rebuilt by each
retrain from the external list of calibration targets and both have that
list's length. -/
theorem store_alignment (gp : ImProcess R M) (config : String → Option R) (sqrt exp : R → R)
    (s : State R M) (hs : StoreReachable gp config sqrt exp s) :
    s._calibrationTargetImages.length = s._calibrationTargetImagesLeft.length ∧
    (∀ (calibrationTargets : List (Point R)) (averageEye averageEyeLeft : Image R),
      (addExemplar gp config sqrt exp calibrationTargets averageEye averageEyeLeft
          s).state._calibrationTargetImages = s._calibrationTargetImages ++ [averageEye] ∧
      (addExemplar gp config sqrt exp calibrationTargets averageEye averageEyeLeft
          s).state._calibrationTargetImagesLeft =
        s._calibrationTargetImagesLeft ++ [averageEyeLeft] ∧
      (addExemplar gp config sqrt exp calibrationTargets averageEye averageEyeLeft
          s).state._calibrationTargetImages.length = s._calibrationTargetImages.length + 1 ∧
      (addExemplar gp config sqrt exp calibrationTargets averageEye averageEyeLeft
          s).state._calibrationTargetImagesLeft.length =
        s._calibrationTargetImagesLeft.length + 1) ∧
    ((clear s)._calibrationTargetImages = [] ∧ (clear s)._calibrationTargetImagesLeft = []) ∧
    (∀ calibrationTargets : List (Point R),
      (xLabels calibrationTargets).length = calibrationTargets.length ∧
      (yLabels calibrationTargets).length = calibrationTargets.length) := by
  refine ⟨store_lengths_eq gp config sqrt exp s hs, ?_, ⟨rfl, rfl⟩, ?_⟩
  · intro calibrationTargets averageEye averageEyeLeft
    obtain ⟨h1, h2⟩ := addExemplar_images gp config sqrt exp calibrationTargets averageEye
      averageEyeLeft s
    refine ⟨h1, h2, ?_, ?_⟩
    · rw [h1, List.length_append]; rfl
    · rw [h2, List.length_append]; rfl
  · intro calibrationTargets
    constructor
    · simp [xLabels, foldl_append_singleton_length]
    · simp [yLabels, foldl_append_singleton_length]

/-- Witness of C8 (as amended): the state after one `addExemplar` on a fresh
tracker is reachable and holds one exemplar per eye. -/
theorem store_alignment_witness :
    (addExemplar constantProcess (defaultConfig ℚ) id id oneTarget [1, 2] [3, 4]
        GazeTracker).state._calibrationTargetImages.length =
      (addExemplar constantProcess (defaultConfig ℚ) id id oneTarget [1, 2] [3, 4]
        GazeTracker).state._calibrationTargetImagesLeft.length :=
  (store_alignment constantProcess (defaultConfig ℚ) id id _
    (StoreReachable.addExemplar oneTarget [1, 2] [3, 4] GazeTracker StoreReachable.construct)).1

/-- C8 as stated fails: with one calibration target in the external list, two
`addExemplar` calls from construction leave two exemplars per eye and one x and
one y label, and a following `clear` empties the exemplar lists while the label
lists of the next retrain still have one entry. -/
theorem store_alignment_counterexample :
    ((addExemplar constantProcess (defaultConfig ℚ) id id oneTarget [5, 6] [7, 8]
        (addExemplar constantProcess (defaultConfig ℚ) id id oneTarget [1, 2] [3, 4]
          GazeTracker).state).state._calibrationTargetImages.length = 2 ∧
      (addExemplar constantProcess (defaultConfig ℚ) id id oneTarget [5, 6] [7, 8]
        (addExemplar constantProcess (defaultConfig ℚ) id id oneTarget [1, 2] [3, 4]
          GazeTracker).state).state._calibrationTargetImagesLeft.length = 2 ∧
      (xLabels oneTarget).length = 1 ∧ (yLabels oneTarget).length = 1) ∧
    ((clear (addExemplar constantProcess (defaultConfig ℚ) id id oneTarget [5, 6]
        [7, 8] (addExemplar constantProcess (defaultConfig ℚ) id id oneTarget
          [1, 2] [3, 4] GazeTracker).state).state)._calibrationTargetImages.length = 0 ∧
      (xLabels oneTarget).length = 1 ∧ (yLabels oneTarget).length = 1) := by
  refine ⟨⟨?_, ?_, rfl, rfl⟩, rfl, rfl, rfl⟩
  · rw [(addExemplar_images _ _ _ _ _ _ _ _).1, (addExemplar_images _ _ _ _ _ _ _ _).1]
    rfl
  · rw [(addExemplar_images _ _ _ _ _ _ _ _).2, (addExemplar_images _ _ _ _ _ _ _ _).2]
    rfl

end StoreTheorems

section GramTheorems

variable {R : Type}

end GramTheorems

section RetrainTheorems

variable {R M : Type} [LinearOrderedField R]

end RetrainTheorems

section StateMachineTheorems

variable {R M : Type} [LinearOrderedField R]

theorem isCalibrated_of_returned (gp : ImProcess R M) (config : String → Option R)
    (sqrt exp : R → R) (calibrationTargets : List (Point R)) (s t : State R M)
    (h : updateGaussianProcesses gp config sqrt exp calibrationTargets s = .returned t) :
    isCalibrated t = true := by
  unfold updateGaussianProcesses at h
  simp only at h
  split at h
  · cases h
  · split at h
    · cases h
    · split at h
      · cases h
      · split at h
        · cases h
        · cases h
          rfl

theorem updateEstimations_models (gp : ImProcess R M) (width height : R)
    (image leftImage : Image R) (isBlinking : Bool) (s t : State R M)
    (h : updateEstimations gp width height image leftImage isBlinking s = some t) :
    isUncalibrated t = isUncalibrated s ∧ isCalibrated t = isCalibrated s := by
  unfold updateEstimations at h
  split at h
  · split at h
    · cases h
      exact ⟨rfl, rfl⟩
    · cases h
  · cases h
    exact ⟨rfl, rfl⟩

theorem reachable_none_or_all (gp : ImProcess R M) (config : String → Option R)
    (sqrt exp : R → R) (width height : R) (s : State R M)
    (hs : Reachable gp config sqrt exp width height s) :
    isUncalibrated s = true ∨ isCalibrated s = true := by
  induction hs with
  | construct => exact Or.inl rfl
  | addExemplar calibrationTargets averageEye averageEyeLeft s t _ h _ =>
    exact Or.inr (isCalibrated_of_returned gp config sqrt exp calibrationTargets _ t h)
  | clear s _ _ => exact Or.inl rfl
  | updateEstimations image leftImage isBlinking s t _ h ih =>
    obtain ⟨h1, h2⟩ := updateEstimations_models gp width height image leftImage isBlinking s t h
    rw [h1, h2]
    exact ih

/-- C10: in every state reachable from construction by `addExemplar` calls whose
fits all succeed, `clear` calls and `updateEstimations` calls, either none or all
of the four models are present; so `isActive()` is true exactly when all four are
present, the left-eye models are present whenever `isActive()` is true, and
`updateEstimations` never dereferences an absent model. -/
theorem two_model_states (gp : ImProcess R M) (config : String → Option R)
    (sqrt exp : R → R) (width height : R) (s : State R M)
    (hs : Reachable gp config sqrt exp width height s) :
    (isUncalibrated s = true ∨ isCalibrated s = true) ∧
    (isActive s = true ↔ isCalibrated s = true) ∧
    (isActive s = true →
      s._gaussianProcessXLeft.isSome = true ∧ s._gaussianProcessYLeft.isSome = true) ∧
    (∀ (image leftImage : Image R) (isBlinking : Bool),
      ∃ t : State R M,
        updateEstimations gp width height image leftImage isBlinking s = some t) := by
  have h := reachable_none_or_all gp config sqrt exp width height s hs
  refine ⟨h, ?_, ?_, ?_⟩
  · rcases h with h | h
    · simp only [isUncalibrated, Bool.and_eq_true, Option.isNone_iff_eq_none] at h
      simp [isActive, isCalibrated, h.1.1.1]
    · simp only [isCalibrated, Bool.and_eq_true] at h
      simp [isActive, isCalibrated, h.1.1.1, h.1.1.2, h.1.2, h.2]
  · intro ha
    rcases h with h | h
    · simp only [isUncalibrated, Bool.and_eq_true, Option.isNone_iff_eq_none] at h
      simp [isActive, h.1.1.1] at ha
    · simp only [isCalibrated, Bool.and_eq_true] at h
      exact ⟨h.1.2, h.2⟩
  · intro image leftImage isBlinking
    rcases h with h | h
    · refine ⟨s, updateEstimations_of_inactive gp width height image leftImage isBlinking s ?_⟩
      simp only [isUncalibrated, Bool.and_eq_true, Option.isNone_iff_eq_none] at h
      simp [isActive, h.1.1.1]
    · simp only [isCalibrated, Bool.and_eq_true, Option.isSome_iff_exists] at h
      obtain ⟨⟨⟨⟨mx, hx⟩, ⟨my, hy⟩⟩, ⟨mxl, hxl⟩⟩, ⟨myl, hyl⟩⟩ := h
      exact ⟨_, updateEstimations_of_models gp width height image leftImage isBlinking s
        mx my mxl myl hx hy hxl hyl⟩

/-- Witness of C10: the state after one successful `addExemplar` on a fresh tracker
is reachable; all four models are present and the tracker is active. -/
theorem two_model_states_witness :
    isCalibrated (addExemplar constantProcess (defaultConfig ℚ) id id oneTarget
      [1, 2] [3, 4] GazeTracker).state = true ∧
    isActive (addExemplar constantProcess (defaultConfig ℚ) id id oneTarget
      [1, 2] [3, 4] GazeTracker).state = true := by
  have hret : addExemplar constantProcess (defaultConfig ℚ) id id oneTarget
      [1, 2] [3, 4] GazeTracker =
      .returned (addExemplar constantProcess (defaultConfig ℚ) id id oneTarget
        [1, 2] [3, 4] GazeTracker).state := by
    simp [addExemplar, updateGaussianProcesses, constantProcess, Outcome.state]
  have h := two_model_states constantProcess (defaultConfig ℚ) id id 1920 1080 _
    (Reachable.addExemplar oneTarget [1, 2] [3, 4] GazeTracker _ Reachable.construct hret)
  have hact : isActive (addExemplar constantProcess (defaultConfig ℚ) id id
      oneTarget [1, 2] [3, 4] GazeTracker).state = true := by
    simp [addExemplar, updateGaussianProcesses, constantProcess, Outcome.state,
      isActive]
  exact ⟨h.2.1.mp hact, hact⟩

end StateMachineTheorems

end GazeTracker
